import Mathlib

/-!
# Spray Window Analysis Engine — shallow embedding

This file embeds the spray-window analysis core of the repository
(`analyzeSprayConditions` and `findSprayWindows` in `src/server/index.ts`)
as executable Lean definitions and proves properties of them.

Modelling conventions:
* JavaScript numbers (wind speed, temperature, probability of
  precipitation) are modelled as exact rationals `ℚ`; the thresholds and
  conversion factors of the source are small decimals, represented
  exactly.
* `Math.round` is modelled by `jsRound` (round half towards +∞, the
  JavaScript semantics).
* Timestamps are epoch seconds (`ℕ`).  The source derives the hour of
  day with `new Date(dt*1000).getHours()` and the day bucket with
  `toLocaleDateString`, both in the server's local time zone; we model
  the runtime's zone as UTC, so the hour is `dt / 3600 % 24` and the
  calendar-day key is the epoch-day number `dt / 86400`.  The source's
  day key (weekday + month + day-of-month string) is injective on the
  ≤ 5-day horizons the engine receives, so the epoch-day key is a
  faithful model of it.
* The source's `time` field is the string `"HH:00-HH:00"`; we model it
  as the pair of its two hour components (`TimeRange`), so
  `time.split('-')[0]` is `.startH` and `time.split('-')[1]` is `.endH`.
* The `lastUpdated` wall-clock timestamp of the result is impure and
  carries no analysed data; the model returns only the two data fields.
-/

/-- One entry of the OpenWeather-style 3-hour forecast list, with the
fields the engine reads: `item.dt`, `item.wind.speed`, `item.wind.deg`,
`item.pop`, `item.main.temp`. -/
structure ForecastItem where
  dt : ℕ
  windSpeed : ℚ
  windDeg : ℚ
  pop : ℚ
  temp : ℚ
  deriving DecidableEq, Repr

/-- A wind-limit profile: `windLimits[sprayType]` rows of the source. -/
structure SprayLimits where
  perfect : ℚ
  risky : ℚ
  deriving DecidableEq, Repr

/-- The four interval statuses of the classifier. -/
inductive SprayStatus where
  | PERFECT
  | RISKY
  | DONT_SPRAY
  | NIGHT
  deriving DecidableEq, Repr

/-- Model of the `"HH:00-HH:00"` time-range string: its two hour
components.  `startH` models `time.split('-')[0]`, `endH` models
`time.split('-')[1]`. -/
structure TimeRange where
  startH : ℕ
  endH : ℕ
  deriving DecidableEq, Repr

/-- One classified interval (`block` object of the source). -/
structure Block where
  time : TimeRange
  status : SprayStatus
  wind : ℚ
  windDir : ℚ
  rain : ℤ
  temp : ℚ
  reason : String
  dt : ℕ
  deriving DecidableEq, Repr

/-- `Math.round`: round half towards +∞ (JavaScript semantics). -/
def jsRound (q : ℚ) : ℤ := ⌊q + 1/2⌋

/-- Local hour of day of an epoch-second timestamp (runtime zone = UTC):
models `new Date(dt*1000).getHours()`. -/
def hourOf (dt : ℕ) : ℕ := dt / 3600 % 24

/-- Calendar-day key of a timestamp (runtime zone = UTC): models the
`toLocaleDateString('en-US', \x7bweekday, month, day\x7d)` bucket key. -/
def dayKeyOf (dt : ℕ) : ℕ := dt / 86400

/-- The profile the engine uses for a spray-type label whose bracket
lookup `windLimits[sprayType]` yields an own entry of the table or a
falsy value: the three table rows, with herbicide for every other such
label.  This covers all labels except the names of members every plain
object inherits from `Object.prototype`; for those the lookup returns a
truthy non-profile and the `|| windLimits.herbicide` fallback never
fires — `resolveLimits` below models the complete lookup. -/
def windLimitsFor (sprayType : String) : SprayLimits :=
  if sprayType = "herbicide" then { perfect := 10, risky := 15 }
  else if sprayType = "fungicide" then { perfect := 12, risky := 15 }
  else if sprayType = "insecticide" then { perfect := 15, risky := 18 }
  else { perfect := 10, risky := 15 }

/-- The property names every plain JavaScript object inherits from
`Object.prototype`.  Bracket access with one of these on the
`windLimits` object literal returns the inherited member — a function
(or, for `__proto__`, an object) — which is truthy, so
`|| windLimits.herbicide` does not replace it, and reading `.perfect`
and `.risky` off it then gives `undefined`. -/
def objectProtoKeys : List String :=
  ["constructor", "hasOwnProperty", "isPrototypeOf", "propertyIsEnumerable",
   "toLocaleString", "toString", "valueOf", "__proto__",
   "__defineGetter__", "__defineSetter__", "__lookupGetter__", "__lookupSetter__"]

/-- The full `windLimits[sprayType] || windLimits.herbicide` lookup
followed by reading the two thresholds: `some limits` when the lookup
(or the herbicide fallback) produced a profile, `none` when the label
named an inherited `Object.prototype` member and both thresholds read
as `undefined`. -/
def resolveLimits (sprayType : String) : Option SprayLimits :=
  if sprayType ∈ objectProtoKeys then none else some (windLimitsFor sprayType)

/-- The per-interval classifier: the body of the `forEach` loop of
`analyzeSprayConditions` that builds one `block` from one forecast item.
Wind is converted m/s → mph by `× 2.237`, rain fraction → percent by
`× 100`; the status rules compare the raw (unrounded) values, while the
stored `rain` field is the rounded percent. -/
def classifyBlock (limits : SprayLimits) (item : ForecastItem) : Block :=
  let hour := hourOf item.dt
  let nextHour := (hour + 3) % 24
  let windMph := item.windSpeed * (2237/1000)
  let rainPercent := item.pop * 100
  let tempC := item.temp
  let sr : SprayStatus × String :=
    if hour < 6 ∨ 20 ≤ hour then
      (.NIGHT, "Outside spraying hours (6am-8pm)")
    else if 2 ≤ windMph ∧ windMph ≤ limits.perfect ∧ rainPercent < 5 ∧
        5 ≤ tempC ∧ tempC ≤ 25 then
      (.PERFECT, "Ideal spraying conditions")
    else if (limits.perfect < windMph ∧ windMph ≤ limits.risky) ∨
        (5 ≤ rainPercent ∧ rainPercent ≤ 20) ∨
        (3 ≤ tempC ∧ tempC < 5) ∨ (25 < tempC ∧ tempC ≤ 28) then
      (.RISKY,
        if limits.perfect < windMph then "Wind approaching limit"
        else if 5 ≤ rainPercent then "Light rain possible"
        else "Temperature not ideal")
    else
      (.DONT_SPRAY,
        if limits.risky < windMph then
          "High wind (" ++ toString (jsRound windMph) ++ "mph)"
        else if 20 < rainPercent then
          "Rain forecast (" ++ toString (jsRound rainPercent) ++ "%)"
        else if tempC < 3 then "Too cold"
        else if 28 < tempC then "Too hot"
        else "Unsuitable conditions")
  { time := { startH := hour, endH := nextHour }
    status := sr.1
    wind := windMph
    windDir := item.windDeg
    rain := jsRound rainPercent
    temp := tempC
    reason := sr.2
    dt := item.dt }

/-- The per-interval classifier when the spray-type label named an
inherited `Object.prototype` member, so that `limits.perfect` and
`limits.risky` are both `undefined`: in JavaScript every relational
comparison against `undefined` is false, so each wind-threshold
subcondition of `classifyBlock` — and only those — becomes `False`
(written literally below where the source compares against a
threshold); everything else is unchanged. -/
def classifyBlockUndef (item : ForecastItem) : Block :=
  let hour := hourOf item.dt
  let nextHour := (hour + 3) % 24
  let windMph := item.windSpeed * (2237/1000)
  let rainPercent := item.pop * 100
  let tempC := item.temp
  let sr : SprayStatus × String :=
    if hour < 6 ∨ 20 ≤ hour then
      (.NIGHT, "Outside spraying hours (6am-8pm)")
    else if 2 ≤ windMph ∧ False ∧ rainPercent < 5 ∧ 5 ≤ tempC ∧ tempC ≤ 25 then
      (.PERFECT, "Ideal spraying conditions")
    else if (False ∧ False) ∨ (5 ≤ rainPercent ∧ rainPercent ≤ 20) ∨
        (3 ≤ tempC ∧ tempC < 5) ∨ (25 < tempC ∧ tempC ≤ 28) then
      (.RISKY,
        if False then "Wind approaching limit"
        else if 5 ≤ rainPercent then "Light rain possible"
        else "Temperature not ideal")
    else
      (.DONT_SPRAY,
        if False then "High wind (" ++ toString (jsRound windMph) ++ "mph)"
        else if 20 < rainPercent then
          "Rain forecast (" ++ toString (jsRound rainPercent) ++ "%)"
        else if tempC < 3 then "Too cold"
        else if 28 < tempC then "Too hot"
        else "Unsuitable conditions")
  { time := { startH := hour, endH := nextHour }
    status := sr.1
    wind := windMph
    windDir := item.windDeg
    rain := jsRound rainPercent
    temp := tempC
    reason := sr.2
    dt := item.dt }

/-- Classification under a resolved lookup: a defined profile supplies
its thresholds; an inherited-member lookup leaves both thresholds
`undefined`. -/
def classifyBlockJS : Option SprayLimits → ForecastItem → Block
  | some limits, item => classifyBlock limits item
  | none, item => classifyBlockUndef item

/-- One day of the timeline.  `day` models the long weekday name as the
weekday index of the epoch day (epoch day 0 was a Thursday, hence the
offset 4); `date` models the ISO date string as the epoch-day number. -/
structure DayTimeline where
  day : ℕ
  date : ℕ
  blocks : List Block
  deriving DecidableEq, Repr

/-- The fresh day bucket created when a day key is first seen. -/
def mkDay (item : ForecastItem) : DayTimeline :=
  { day := (item.dt / 86400 + 4) % 7, date := item.dt / 86400, blocks := [] }

/-- `dayMap[dayKey].blocks.push(block)`, creating the bucket on first
sight of the key; the association list keeps buckets in first-seen
(insertion) order, as the source's object does. -/
def addToDayMap (key : ℕ) (item : ForecastItem) (blk : Block) :
    List (ℕ × DayTimeline) → List (ℕ × DayTimeline)
  | [] => [(key, { mkDay item with blocks := [blk] })]
  | (k, d) :: rest =>
    if k = key then (k, { d with blocks := d.blocks ++ [blk] }) :: rest
    else (k, d) :: addToDayMap key item blk rest

/-- The grouping pass of `analyzeSprayConditions`: classify each item and
push it into its day bucket. -/
def buildDayMap (limits : SprayLimits) (forecast : List ForecastItem) :
    List (ℕ × DayTimeline) :=
  forecast.foldl
    (fun m item => addToDayMap (dayKeyOf item.dt) item (classifyBlock limits item) m)
    []

/-- `Object.values(dayMap)`: the timeline in bucket-insertion order. -/
def buildTimeline (limits : SprayLimits) (forecast : List ForecastItem) :
    List DayTimeline :=
  (buildDayMap limits forecast).map (·.2)

/-- The mutable `currentWindow` accumulator of `findSprayWindows`, with
its member `blocks` list still attached (the source deletes `blocks`
when it closes a window; `closeWindow` below is that projection). -/
structure WindowAcc where
  day : ℕ
  date : ℕ
  startTime : ℕ
  blocks : List Block
  quality : SprayStatus
  deriving DecidableEq, Repr

/-- A closed spray window as the source emits it (its `blocks` deleted). -/
structure SprayWindow where
  day : ℕ
  date : ℕ
  startTime : ℕ
  endTime : ℕ
  durationHours : ℕ
  quality : SprayStatus
  avgWind : ℚ
  avgTemp : ℚ
  rainChance : ℤ
  deriving DecidableEq, Repr

instance : Inhabited Block :=
  ⟨{ time := { startH := 0, endH := 0 }, status := .NIGHT, wind := 0,
     windDir := 0, rain := 0, temp := 0, reason := "", dt := 0 }⟩

/-- `Math.max(...blocks.map(b => b.rain))`; the source only applies it to
nonempty member lists, so the `[]` value is irrelevant. -/
def maxRainOf : List Block → ℤ
  | [] => 0
  | b :: bs => bs.foldl (fun m x => max m x.rain) b.rain

/-- Closing a window: the aggregate fields the source computes before
deleting the member `blocks` (`endTime` from the last member's time
range, duration = member count × 3, mean wind and temperature, maximum
rounded rain percent). -/
def closeWindow (acc : WindowAcc) : SprayWindow :=
  { day := acc.day
    date := acc.date
    startTime := acc.startTime
    endTime := (acc.blocks.getLastD default).time.endH
    durationHours := acc.blocks.length * 3
    quality := acc.quality
    avgWind := (acc.blocks.map (·.wind)).sum / acc.blocks.length
    avgTemp := (acc.blocks.map (·.temp)).sum / acc.blocks.length
    rainChance := maxRainOf acc.blocks }

/-- `currentWindow = { day, date, startTime, blocks: [block], quality }`:
a new window seeded by `b`. -/
def startWindow (day : DayTimeline) (b : Block) : WindowAcc :=
  { day := day.day, date := day.date, startTime := b.time.startH,
    blocks := [b], quality := b.status }

/-- One iteration of the per-day loop of `findSprayWindows`: state is the
optional open window plus the closed windows collected so far (the
closed ones kept with their member blocks; projecting with `closeWindow`
recovers the source's output). -/
def stepWindow (day : DayTimeline) (st : Option WindowAcc × List WindowAcc)
    (b : Block) : Option WindowAcc × List WindowAcc :=
  if b.status = .PERFECT ∨ b.status = .RISKY then
    match st.1 with
    | none => (some (startWindow day b), st.2)
    | some acc =>
      if acc.quality = b.status then
        (some { acc with blocks := acc.blocks ++ [b] }, st.2)
      else
        (some (startWindow day b), st.2 ++ [acc])
  else
    match st.1 with
    | some acc =>
      if acc.blocks.length > 0 then (none, st.2 ++ [acc]) else (some acc, st.2)
    | none => (none, st.2)

/-- The per-day pass of `findSprayWindows`, member blocks retained:
walk the day's blocks, then close any still-open window at end of day. -/
def processDayWB (day : DayTimeline) : List WindowAcc :=
  match day.blocks.foldl (stepWindow day) (none, []) with
  | (some acc, ws) => if acc.blocks.length > 0 then ws ++ [acc] else ws
  | (none, ws) => ws

/-- All windows of all days in day order, pre-sort, members retained. -/
def allWindowsWB (timeline : List DayTimeline) : List WindowAcc :=
  timeline.flatMap processDayWB

/-- The unsorted window list exactly as the source builds it (member
blocks deleted on close). -/
def allWindows (timeline : List DayTimeline) : List SprayWindow :=
  (allWindowsWB timeline).map closeWindow

/-- The sort comparator of `findSprayWindows`: PERFECT before everything
else, then longer duration first. -/
def windowCmp (a b : SprayWindow) : ℤ :=
  if a.quality = .PERFECT ∧ ¬ b.quality = .PERFECT then -1
  else if ¬ a.quality = .PERFECT ∧ b.quality = .PERFECT then 1
  else (b.durationHours : ℤ) - (a.durationHours : ℤ)

/-- The "keep `a` before `b`" relation of a stable sort driven by
`windowCmp`: JavaScript's `Array.prototype.sort` is stable and
`windowCmp` is a consistent comparator, so the sorted output is the one
produced by any stable sort with this relation. -/
def windowLE (a b : SprayWindow) : Bool := decide (windowCmp a b ≤ 0)

/-- `findSprayWindows`: merge every day, then sort the collected windows
by quality (PERFECT first) then duration (descending), stably. -/
def findSprayWindows (timeline : List DayTimeline) : List SprayWindow :=
  (allWindows timeline).mergeSort windowLE

/-- The analysis result (its impure `lastUpdated` wall-clock field
omitted: it carries no analysed data). -/
structure SprayAnalysis where
  recommendedWindows : List SprayWindow
  timeline : List DayTimeline
  deriving DecidableEq, Repr

/-- `analyzeSprayConditions` for a label already resolved to a defined
profile (every label except the inherited `Object.prototype` member
names): classify and group the forecast, then find and rank the spray
windows.  `analyzeSprayConditionsFull` below models the complete
prototype-chain lookup. -/
def analyzeSprayConditions (forecast : List ForecastItem) (sprayType : String) :
    SprayAnalysis :=
  let limits := windLimitsFor sprayType
  let timeline := buildTimeline limits forecast
  { recommendedWindows := findSprayWindows timeline, timeline := timeline }

/-- The grouping pass under the full label resolution. -/
def buildDayMapJS (r : Option SprayLimits) (forecast : List ForecastItem) :
    List (ℕ × DayTimeline) :=
  forecast.foldl
    (fun m item => addToDayMap (dayKeyOf item.dt) item (classifyBlockJS r item) m)
    []

/-- The timeline under the full label resolution. -/
def buildTimelineJS (r : Option SprayLimits) (forecast : List ForecastItem) :
    List DayTimeline :=
  (buildDayMapJS r forecast).map (·.2)

/-- `analyzeSprayConditions` with the prototype-chain-faithful
resolution of the spray-type label: the three table labels use their
rows, labels naming inherited `Object.prototype` members classify with
both thresholds `undefined`, and every other label falls back to the
herbicide row.  No branch raises an error. -/
def analyzeSprayConditionsFull (forecast : List ForecastItem) (sprayType : String) :
    SprayAnalysis :=
  let r := resolveLimits sprayType
  let timeline := buildTimelineJS r forecast
  { recommendedWindows := findSprayWindows timeline, timeline := timeline }

/-! ## Invariant definitions used by the proofs -/

/-- Pointwise invariant of a `dayMap` entry after some prefix of the
forecast has been processed: the entry's date is its key and its blocks
are exactly the classified items of that key, in arrival order. -/
def entryChar (limits : SprayLimits) (processed : List ForecastItem)
    (p : ℕ × DayTimeline) : Prop :=
  p.2.date = p.1 ∧
  p.2.blocks = (processed.filter (fun it => dayKeyOf it.dt == p.1)).map (classifyBlock limits)

/-- Invariant of the whole `dayMap` accumulator. -/
def dayMapInv (limits : SprayLimits) (processed : List ForecastItem)
    (m : List (ℕ × DayTimeline)) : Prop :=
  (m.map (·.1)).Nodup ∧
  (∀ p ∈ m, entryChar limits processed p) ∧
  (∀ it ∈ processed, dayKeyOf it.dt ∈ m.map (·.1)) ∧
  (m.map (·.2.blocks.length)).sum = processed.length

/-- A well-formed window run of a day: nonempty, all member statuses
equal to the window's quality, the quality spray-safe, and its labels
taken from the day. -/
def goodRun (day : DayTimeline) (wb : WindowAcc) : Prop :=
  ¬ wb.blocks = [] ∧
  (∀ b ∈ wb.blocks, b.status = wb.quality) ∧
  (wb.quality = .PERFECT ∨ wb.quality = .RISKY) ∧
  wb.day = day.day ∧ wb.date = day.date

/-- Invariant of the per-day merge loop after `processed` blocks of the
day have been consumed: every closed window is a good contiguous run of
`processed`, and the open window (if any) is a good run forming a
suffix of `processed`. -/
def mergeInv (day : DayTimeline) (processed : List Block)
    (st : Option WindowAcc × List WindowAcc) : Prop :=
  (∀ wb ∈ st.2, goodRun day wb ∧ ∃ pre post, processed = pre ++ wb.blocks ++ post) ∧
  ∀ acc, st.1 = some acc → goodRun day acc ∧ ∃ pre, processed = pre ++ acc.blocks

/-- The primary sort key of the ranking comparator: PERFECT windows
rank 0, everything else 1. -/
def windowRank (w : SprayWindow) : ℕ := if w.quality = .PERFECT then 0 else 1

/-- The member-order key a stable sort must preserve among windows tied
on quality class and duration. -/
def tiedKey (q : Bool) (n : ℕ) (w : SprayWindow) : Bool :=
  (decide (w.quality = .PERFECT) == q) && (w.durationHours == n)

/-! ## Basic facts about the wind-limit table -/

lemma windLimitsFor_facts (s : String) :
    2 ≤ (windLimitsFor s).perfect ∧ (windLimitsFor s).perfect ≤ (windLimitsFor s).risky := by
  unfold windLimitsFor
  split_ifs <;> norm_num

/-! ## Invariants of the day-grouping pass -/

lemma addToDayMap_keys (k : ℕ) (it : ForecastItem) (blk : Block) :
    ∀ m : List (ℕ × DayTimeline),
      (addToDayMap k it blk m).map (·.1) =
        if k ∈ m.map (·.1) then m.map (·.1) else m.map (·.1) ++ [k]
  | [] => by simp [addToDayMap]
  | (k0, d) :: rest => by
    by_cases h : k0 = k
    · subst h
      simp [addToDayMap]
    · have hne : ¬ k = k0 := fun hh => h hh.symm
      simp only [addToDayMap, if_neg h, List.map_cons, List.mem_cons,
        addToDayMap_keys k it blk rest]
      by_cases hk : k ∈ rest.map (·.1)
      · rw [if_pos hk, if_pos (Or.inr hk)]
      · rw [if_neg hk, if_neg (by rintro (h1 | h2); exact hne h1; exact hk h2)]
        simp

lemma addToDayMap_sum (k : ℕ) (it : ForecastItem) (blk : Block) :
    ∀ m : List (ℕ × DayTimeline),
      ((addToDayMap k it blk m).map (·.2.blocks.length)).sum =
        (m.map (·.2.blocks.length)).sum + 1
  | [] => by simp [addToDayMap]
  | (k0, d) :: rest => by
    by_cases h : k0 = k
    · subst h
      simp [addToDayMap]
      omega
    · simp only [addToDayMap, if_neg h, List.map_cons, List.sum_cons,
        addToDayMap_sum k it blk rest]
      omega

lemma filter_key_one (k : ℕ) (it : ForecastItem) :
    List.filter (fun x => dayKeyOf x.dt == k) [it] =
      if dayKeyOf it.dt = k then [it] else [] := by
  by_cases h : dayKeyOf it.dt = k <;>
    simp [List.filter_cons, h]

lemma addToDayMap_entryChar (limits : SprayLimits) (it : ForecastItem) :
    ∀ (m : List (ℕ × DayTimeline)) (processed : List ForecastItem),
      (m.map (·.1)).Nodup →
      (∀ p ∈ m, entryChar limits processed p) →
      (¬ dayKeyOf it.dt ∈ m.map (·.1) →
        processed.filter (fun x => dayKeyOf x.dt == dayKeyOf it.dt) = []) →
      ∀ q ∈ addToDayMap (dayKeyOf it.dt) it (classifyBlock limits it) m,
        entryChar limits (processed ++ [it]) q := by
  intro m
  induction m with
  | nil =>
    intro processed _ _ hfresh q hq
    simp only [addToDayMap, List.mem_singleton] at hq
    subst hq
    refine ⟨rfl, ?_⟩
    rw [List.filter_append, hfresh (by simp), List.nil_append, filter_key_one,
      if_pos rfl]
    rfl
  | cons p rest ih =>
    intro processed hnd hchar hfresh q hq
    by_cases h : p.1 = dayKeyOf it.dt
    · rw [show addToDayMap (dayKeyOf it.dt) it (classifyBlock limits it) (p :: rest)
          = (p.1, { p.2 with blocks := p.2.blocks ++ [classifyBlock limits it] }) :: rest by
        cases p; simp only [addToDayMap]; rw [if_pos h]] at hq
      rcases List.mem_cons.mp hq with hq | hq
      · subst hq
        obtain ⟨hdate, hblocks⟩ := hchar p (by simp)
        refine ⟨hdate, ?_⟩
        rw [List.filter_append, List.map_append, ← hblocks, filter_key_one,
          if_pos h.symm]
        rfl
      · obtain ⟨hdate, hblocks⟩ := hchar q (List.mem_cons_of_mem _ hq)
        have hqk : ¬ dayKeyOf it.dt = q.1 := by
          intro hk
          have hmem : q.1 ∈ rest.map (·.1) := List.mem_map_of_mem (·.1) hq
          rw [← hk, ← h] at hmem
          exact (List.nodup_cons.mp (by simpa using hnd)).1 hmem
        refine ⟨hdate, ?_⟩
        rw [List.filter_append, List.map_append, ← hblocks, filter_key_one,
          if_neg hqk]
        simp
    · rw [show addToDayMap (dayKeyOf it.dt) it (classifyBlock limits it) (p :: rest)
          = p :: addToDayMap (dayKeyOf it.dt) it (classifyBlock limits it) rest by
        cases p; simp only [addToDayMap]; rw [if_neg h]] at hq
      rcases List.mem_cons.mp hq with hq | hq
      · subst hq
        obtain ⟨hdate, hblocks⟩ := hchar q (by simp)
        refine ⟨hdate, ?_⟩
        rw [List.filter_append, List.map_append, ← hblocks, filter_key_one,
          if_neg (fun hc => h hc.symm)]
        simp
      · exact ih processed
          (List.nodup_cons.mp (by simpa using hnd)).2
          (fun r hr => hchar r (List.mem_cons_of_mem _ hr))
          (fun hk => hfresh (by
            simp only [List.map_cons, List.mem_cons]
            rintro (h1 | h2)
            · exact h h1.symm
            · exact hk h2))
          q hq

lemma dayMapInv_step (limits : SprayLimits) (processed : List ForecastItem)
    (m : List (ℕ × DayTimeline)) (it : ForecastItem)
    (hinv : dayMapInv limits processed m) :
    dayMapInv limits (processed ++ [it])
      (addToDayMap (dayKeyOf it.dt) it (classifyBlock limits it) m) := by
  obtain ⟨hnd, hchar, hcomp, hsum⟩ := hinv
  have hfresh : ¬ dayKeyOf it.dt ∈ m.map (·.1) →
      processed.filter (fun x => dayKeyOf x.dt == dayKeyOf it.dt) = [] := by
    intro hk
    rw [List.filter_eq_nil_iff]
    intro x hx
    simp only [Nat.beq_eq_true_eq]
    intro hc
    exact hk (hc ▸ hcomp x hx)
  refine ⟨?_, addToDayMap_entryChar limits it m processed hnd hchar hfresh, ?_, ?_⟩
  · rw [addToDayMap_keys]
    by_cases hk : dayKeyOf it.dt ∈ m.map (·.1)
    · rwa [if_pos hk]
    · rw [if_neg hk]
      simp [List.nodup_append, hnd, hk]
  · intro x hx
    rw [addToDayMap_keys]
    by_cases hk : dayKeyOf it.dt ∈ m.map (·.1)
    · rw [if_pos hk]
      rcases List.mem_append.mp hx with hx | hx
      · exact hcomp x hx
      · rw [List.mem_singleton.mp hx]
        exact hk
    · rw [if_neg hk]
      rcases List.mem_append.mp hx with hx | hx
      · exact List.mem_append_left _ (hcomp x hx)
      · rw [List.mem_singleton.mp hx]
        exact List.mem_append_right _ (by simp)
  · rw [addToDayMap_sum, hsum]
    simp

lemma buildDayMap_inv_aux (limits : SprayLimits) :
    ∀ (forecast : List ForecastItem) (processed : List ForecastItem)
      (m : List (ℕ × DayTimeline)),
      dayMapInv limits processed m →
      dayMapInv limits (processed ++ forecast)
        (forecast.foldl
          (fun acc it => addToDayMap (dayKeyOf it.dt) it (classifyBlock limits it) acc) m)
  | [], processed, m, hinv => by simpa using hinv
  | it :: rest, processed, m, hinv => by
    have h1 := dayMapInv_step limits processed m it hinv
    have h2 := buildDayMap_inv_aux limits rest (processed ++ [it]) _ h1
    simpa using h2

lemma buildDayMap_inv (limits : SprayLimits) (forecast : List ForecastItem) :
    dayMapInv limits forecast (buildDayMap limits forecast) := by
  have := buildDayMap_inv_aux limits forecast [] [] ⟨by simp, by simp, by simp, by simp⟩
  simpa [buildDayMap] using this

/-! ## Invariants of the per-day window merge -/

lemma mergeInv_step (day : DayTimeline) (processed : List Block)
    (st : Option WindowAcc × List WindowAcc) (b : Block)
    (hinv : mergeInv day processed st) :
    mergeInv day (processed ++ [b]) (stepWindow day st b) := by
  obtain ⟨cw, ws⟩ := st
  obtain ⟨hws, hacc⟩ := hinv
  have hext : ∀ wb ∈ ws, goodRun day wb ∧
      ∃ pre post, processed ++ [b] = pre ++ wb.blocks ++ post := by
    intro wb hwb
    obtain ⟨hg, pre, post, hsplit⟩ := hws wb hwb
    exact ⟨hg, pre, post ++ [b], by rw [hsplit]; simp⟩
  by_cases hpr : b.status = .PERFECT ∨ b.status = .RISKY
  · cases cw with
    | none =>
      simp only [stepWindow, if_pos hpr]
      refine ⟨hext, ?_⟩
      rintro acc hsome
      cases hsome
      refine ⟨⟨by simp [startWindow], ?_, hpr, rfl, rfl⟩, processed, rfl⟩
      intro x hx
      rw [List.mem_singleton.mp hx]
      rfl
    | some acc =>
      obtain ⟨⟨hne, hstat, hqual, hday, hdate⟩, pre, hsuf⟩ := hacc acc rfl
      by_cases hq : acc.quality = b.status
      · simp only [stepWindow, if_pos hpr, if_pos hq]
        refine ⟨hext, ?_⟩
        rintro acc' hsome
        cases hsome
        refine ⟨⟨by simp, ?_, hqual, hday, hdate⟩, pre, ?_⟩
        · intro x hx
          rcases List.mem_append.mp hx with hx | hx
          · exact hstat x hx
          · rw [List.mem_singleton.mp hx]
            exact hq.symm
        · rw [hsuf, List.append_assoc]
      · simp only [stepWindow, if_pos hpr, if_neg hq]
        refine ⟨?_, ?_⟩
        · intro wb hwb
          rcases List.mem_append.mp hwb with hwb | hwb
          · exact hext wb hwb
          · rw [List.mem_singleton.mp hwb]
            exact ⟨⟨hne, hstat, hqual, hday, hdate⟩, pre, [b], by rw [hsuf]⟩
        · rintro acc' hsome
          cases hsome
          refine ⟨⟨by simp [startWindow], ?_, ?_, rfl, rfl⟩, processed, rfl⟩
          · intro x hx
            rw [List.mem_singleton.mp hx]
            rfl
          · exact hpr
  · cases cw with
    | none =>
      simp only [stepWindow, if_neg hpr]
      refine ⟨hext, ?_⟩
      rintro acc hsome
      cases hsome
    | some acc =>
      obtain ⟨⟨hne, hstat, hqual, hday, hdate⟩, pre, hsuf⟩ := hacc acc rfl
      simp only [stepWindow, if_neg hpr, if_pos (List.length_pos.mpr hne)]
      refine ⟨?_, ?_⟩
      · intro wb hwb
        rcases List.mem_append.mp hwb with hwb | hwb
        · exact hext wb hwb
        · rw [List.mem_singleton.mp hwb]
          exact ⟨⟨hne, hstat, hqual, hday, hdate⟩, pre, [b], by rw [hsuf]⟩
      · rintro acc' hsome
        cases hsome

lemma mergeInv_foldl (day : DayTimeline) :
    ∀ (bs : List Block) (processed : List Block)
      (st : Option WindowAcc × List WindowAcc),
      mergeInv day processed st →
      mergeInv day (processed ++ bs) (bs.foldl (stepWindow day) st)
  | [], processed, st, h => by simpa using h
  | b :: rest, processed, st, h => by
    have h1 := mergeInv_step day processed st b h
    have h2 := mergeInv_foldl day rest (processed ++ [b]) _ h1
    simpa using h2

lemma processDayWB_good (day : DayTimeline) :
    ∀ wb ∈ processDayWB day, goodRun day wb ∧
      ∃ pre post, day.blocks = pre ++ wb.blocks ++ post := by
  intro wb hwb
  have hinv := mergeInv_foldl day day.blocks [] (none, [])
    ⟨by simp, by rintro acc h; cases h⟩
  rw [List.nil_append] at hinv
  unfold processDayWB at hwb
  rcases hfold : day.blocks.foldl (stepWindow day) (none, []) with ⟨cw, ws⟩
  rw [hfold] at hinv hwb
  obtain ⟨hws, hacc⟩ := hinv
  cases cw with
  | none =>
    replace hwb : wb ∈ ws := hwb
    exact hws wb hwb
  | some acc =>
    replace hwb : wb ∈ (if acc.blocks.length > 0 then ws ++ [acc] else ws) := hwb
    by_cases hlen : acc.blocks.length > 0
    · rw [if_pos hlen] at hwb
      rcases List.mem_append.mp hwb with h | h
      · exact hws wb h
      · rw [List.mem_singleton.mp h]
        obtain ⟨hg, pre, hsuf⟩ := hacc acc rfl
        exact ⟨hg, pre, [], by rw [hsuf]; simp⟩
    · rw [if_neg hlen] at hwb
      exact hws wb hwb

lemma allWindowsWB_good (timeline : List DayTimeline) :
    ∀ wb ∈ allWindowsWB timeline, ∃ day ∈ timeline,
      goodRun day wb ∧ ∃ pre post, day.blocks = pre ++ wb.blocks ++ post := by
  intro wb hwb
  obtain ⟨day, hday, hmem⟩ := List.mem_flatMap.mp hwb
  exact ⟨day, hday, processDayWB_good day wb hmem⟩

lemma findSprayWindows_mem (timeline : List DayTimeline) (w : SprayWindow)
    (hw : w ∈ findSprayWindows timeline) :
    ∃ wb ∈ allWindowsWB timeline, w = closeWindow wb := by
  have hmem : w ∈ allWindows timeline := List.mem_mergeSort.mp hw
  obtain ⟨wb, hwb, hcw⟩ := List.mem_map.mp hmem
  exact ⟨wb, hwb, hcw.symm⟩

/-! ## Facts about the aggregate fields of a closed window -/

lemma foldl_max_facts : ∀ (bs : List Block) (a : ℤ),
    a ≤ bs.foldl (fun m x => max m x.rain) a ∧
    (∀ b ∈ bs, b.rain ≤ bs.foldl (fun m x => max m x.rain) a) ∧
    (bs.foldl (fun m x => max m x.rain) a = a ∨
      ∃ b ∈ bs, bs.foldl (fun m x => max m x.rain) a = b.rain)
  | [], a => by simp
  | b :: rest, a => by
    obtain ⟨h1, h2, h3⟩ := foldl_max_facts rest (max a b.rain)
    simp only [List.foldl_cons]
    refine ⟨le_trans (le_max_left _ _) h1, ?_, ?_⟩
    · intro x hx
      rcases List.mem_cons.mp hx with hx | hx
      · rw [hx]
        exact le_trans (le_max_right _ _) h1
      · exact h2 x hx
    · rcases h3 with h | ⟨x, hx, hfx⟩
      · rcases max_choice a b.rain with hm | hm
        · left
          rw [h, hm]
        · right
          exact ⟨b, by simp, by rw [h, hm]⟩
      · right
        exact ⟨x, List.mem_cons_of_mem _ hx, hfx⟩

lemma maxRainOf_spec (bs : List Block) (h : ¬ bs = []) :
    maxRainOf bs ∈ bs.map (·.rain) ∧ ∀ b ∈ bs, b.rain ≤ maxRainOf bs := by
  cases bs with
  | nil => exact absurd rfl h
  | cons b rest =>
    obtain ⟨h1, h2, h3⟩ := foldl_max_facts rest b.rain
    constructor
    · rcases h3 with hh | ⟨x, hx, hfx⟩
      · rw [show maxRainOf (b :: rest) = rest.foldl (fun m x => max m x.rain) b.rain from rfl,
          hh]
        simp
      · rw [show maxRainOf (b :: rest) = rest.foldl (fun m x => max m x.rain) b.rain from rfl,
          hfx]
        exact List.mem_map_of_mem (·.rain) (List.mem_cons_of_mem _ hx)
    · intro x hx
      rcases List.mem_cons.mp hx with hx | hx
      · rw [hx]
        exact h1
      · exact h2 x hx

lemma closeWindow_getLast (wb : WindowAcc) (h : ¬ wb.blocks = []) :
    ∃ lb, wb.blocks.getLast? = some lb ∧ (closeWindow wb).endTime = lb.time.endH := by
  refine ⟨wb.blocks.getLast h, List.getLast?_eq_getLast _ h, ?_⟩
  show (wb.blocks.getLastD default).time.endH = _
  rw [List.getLastD_eq_getLast?, List.getLast?_eq_getLast _ h]
  rfl

/-! ## C1 — rain-probability thresholds and rounding -/

/-- C1, counterexample: the claim asserts that the classifier compares its
rain thresholds against the rounded percentage, so that a daytime
interval with `pop = 0.049` (4.9 %, rounding to 5) would be RISKY.  On
the code the thresholds compare the raw percentage: at 10:00, wind
2 m/s (4.474 mph ∈ [2, 10]), temperature 18 °C and `pop = 0.049` the
herbicide classifier returns PERFECT, not RISKY, even though the
percentage rounds to 5. -/
theorem rain_rounding_counterexample :
    (classifyBlock (windLimitsFor "herbicide")
        { dt := 36000, windSpeed := 2, windDeg := 90, pop := 49/1000, temp := 18 }).status
      = .PERFECT ∧
    ¬ (classifyBlock (windLimitsFor "herbicide")
        { dt := 36000, windSpeed := 2, windDeg := 90, pop := 49/1000, temp := 18 }).status
      = .RISKY ∧
    jsRound ((49/1000 : ℚ) * 100) = 5 := by
  refine ⟨?_, ?_, ?_⟩ <;> with_unfolding_all decide

/-- C1, amended: the classifier's rain thresholds are compared against
the raw percentage `pop × 100` (no rounding); rounding applies only to
the stored display field `rain`.  In particular every daytime interval
with `pop = 0.049`, wind mph ∈ [2, perfectMax] and temperature ∈
[5, 25] °C is PERFECT (not RISKY), while its displayed rain value is
the rounded 5. -/
theorem rain_threshold_uses_raw_percent (s : String) (item : ForecastItem)
    (h6 : 6 ≤ hourOf item.dt) (h20 : hourOf item.dt < 20)
    (hp : item.pop = 49/1000)
    (hw2 : 2 ≤ item.windSpeed * (2237/1000))
    (hwp : item.windSpeed * (2237/1000) ≤ (windLimitsFor s).perfect)
    (ht1 : 5 ≤ item.temp) (ht2 : item.temp ≤ 25) :
    (classifyBlock (windLimitsFor s) item).status = .PERFECT ∧
    ¬ (classifyBlock (windLimitsFor s) item).status = .RISKY ∧
    (classifyBlock (windLimitsFor s) item).reason = "Ideal spraying conditions" ∧
    (classifyBlock (windLimitsFor s) item).rain = 5 := by
  have hr : item.pop * 100 < 5 := by rw [hp]; norm_num
  unfold classifyBlock
  simp only
  rw [if_neg (by omega), if_pos ⟨hw2, hwp, hr, ht1, ht2⟩]
  refine ⟨rfl, by simp, rfl, ?_⟩
  rw [hp]
  with_unfolding_all decide

/-- C1, witness: the amended statement at the concrete counterexample
interval. -/
theorem rain_threshold_uses_raw_percent_witness :
    (classifyBlock (windLimitsFor "herbicide")
        { dt := 36000, windSpeed := 2, windDeg := 90, pop := 49/1000, temp := 18 }).status
      = .PERFECT ∧
    ¬ (classifyBlock (windLimitsFor "herbicide")
        { dt := 36000, windSpeed := 2, windDeg := 90, pop := 49/1000, temp := 18 }).status
      = .RISKY ∧
    (classifyBlock (windLimitsFor "herbicide")
        { dt := 36000, windSpeed := 2, windDeg := 90, pop := 49/1000, temp := 18 }).reason
      = "Ideal spraying conditions" ∧
    (classifyBlock (windLimitsFor "herbicide")
        { dt := 36000, windSpeed := 2, windDeg := 90, pop := 49/1000, temp := 18 }).rain
      = 5 := by
  have h := rain_threshold_uses_raw_percent "herbicide"
    { dt := 36000, windSpeed := 2, windDeg := 90, pop := 49/1000, temp := 18 }
    (by decide) (by decide) rfl
    (by with_unfolding_all decide) (by with_unfolding_all decide)
    (by with_unfolding_all decide) (by with_unfolding_all decide)
  exact h

/-! ## Facts about the ranking comparator -/

lemma windowLE_iff (a b : SprayWindow) :
    windowLE a b = true ↔
      (windowRank a < windowRank b ∨
        (windowRank a = windowRank b ∧ b.durationHours ≤ a.durationHours)) := by
  unfold windowLE windowCmp windowRank
  by_cases ha : a.quality = .PERFECT <;> by_cases hb : b.quality = .PERFECT <;>
    simp [ha, hb] <;> try omega

lemma windowLE_trans (a b c : SprayWindow) :
    windowLE a b → windowLE b c → windowLE a c := by
  intro h1 h2
  rw [windowLE_iff] at h1 h2 ⊢
  omega

lemma windowLE_total (a b : SprayWindow) : windowLE a b || windowLE b a := by
  rw [Bool.or_eq_true, windowLE_iff, windowLE_iff]
  omega

/-! ## C2 — windows are single-day, single-quality runs -/

/-- C2: every window produced by the merger corresponds to a nonempty
contiguous run of blocks within a single timeline day, all of whose
statuses equal the window's quality; that quality is PERFECT or RISKY
(never DONT_SPRAY or NIGHT), and the window carries that day's labels —
no window mixes two qualities or crosses a day boundary. -/
theorem window_single_day_single_quality (timeline : List DayTimeline)
    (w : SprayWindow) (hw : w ∈ findSprayWindows timeline) :
    (w.quality = .PERFECT ∨ w.quality = .RISKY) ∧
    ∃ day ∈ timeline, ∃ bs : List Block,
      ¬ bs = [] ∧ (∃ pre post, day.blocks = pre ++ bs ++ post) ∧
      (∀ b ∈ bs, b.status = w.quality) ∧
      w.day = day.day ∧ w.date = day.date := by
  obtain ⟨wb, hwb, rfl⟩ := findSprayWindows_mem timeline w hw
  obtain ⟨day, hday, ⟨hne, hstat, hqual, hday', hdate⟩, pre, post, hsplit⟩ :=
    allWindowsWB_good timeline wb hwb
  exact ⟨hqual, day, hday, wb.blocks, hne, ⟨pre, post, hsplit⟩, hstat, hday', hdate⟩

/-- C2, witness: in a one-day timeline with statuses
[PERFECT, RISKY, RISKY], the top-ranked output window has a spray-safe
quality. -/
theorem window_single_day_single_quality_witness :
    ({ day := 4, date := 0, startTime := 10, endTime := 13, durationHours := 3,
       quality := .PERFECT, avgWind := 5, avgTemp := 18,
       rainChance := 0 } : SprayWindow).quality = .PERFECT ∨
    ({ day := 4, date := 0, startTime := 10, endTime := 13, durationHours := 3,
       quality := .PERFECT, avgWind := 5, avgTemp := 18,
       rainChance := 0 } : SprayWindow).quality = .RISKY := by
  have hfw : findSprayWindows
      [{ day := 4, date := 0,
         blocks := [{ time := { startH := 10, endH := 13 }, status := .PERFECT,
                      wind := 5, windDir := 0, rain := 0, temp := 18,
                      reason := "ok", dt := 36000 },
                    { time := { startH := 13, endH := 16 }, status := .RISKY,
                      wind := 11, windDir := 0, rain := 10, temp := 18,
                      reason := "rain", dt := 46800 },
                    { time := { startH := 16, endH := 19 }, status := .RISKY,
                      wind := 11, windDir := 0, rain := 10, temp := 18,
                      reason := "rain", dt := 57600 }] }] =
      [{ day := 4, date := 0, startTime := 10, endTime := 13, durationHours := 3,
         quality := .PERFECT, avgWind := 5, avgTemp := 18, rainChance := 0 },
       { day := 4, date := 0, startTime := 13, endTime := 19, durationHours := 6,
         quality := .RISKY, avgWind := 11, avgTemp := 18, rainChance := 10 }] := by
    with_unfolding_all exact rfl
  exact (window_single_day_single_quality _ _ (by rw [hfw]; exact List.mem_cons_self _ _)).1

/-! ## C5 — the aggregate fields of a closed window -/

/-- C5: every output window arises from a nonempty contiguous member run
bs of one timeline day with durationHours = |bs| × 3, avgWind and
avgTemp the arithmetic means of the members' wind and temperature
values, rainChance the maximum of the members' (rounded) rain
percentages, and endTime the end of the last member's time range. -/
theorem window_aggregates (timeline : List DayTimeline) (w : SprayWindow)
    (hw : w ∈ findSprayWindows timeline) :
    ∃ day ∈ timeline, ∃ bs : List Block,
      ¬ bs = [] ∧ (∃ pre post, day.blocks = pre ++ bs ++ post) ∧
      w.durationHours = bs.length * 3 ∧
      w.avgWind = (bs.map (·.wind)).sum / bs.length ∧
      w.avgTemp = (bs.map (·.temp)).sum / bs.length ∧
      w.rainChance ∈ bs.map (·.rain) ∧
      (∀ b ∈ bs, b.rain ≤ w.rainChance) ∧
      ∃ lb, bs.getLast? = some lb ∧ w.endTime = lb.time.endH := by
  obtain ⟨wb, hwb, rfl⟩ := findSprayWindows_mem timeline w hw
  obtain ⟨day, hday, ⟨hne, hstat, hqual, hday', hdate⟩, pre, post, hsplit⟩ :=
    allWindowsWB_good timeline wb hwb
  obtain ⟨hmem, hle⟩ := maxRainOf_spec wb.blocks hne
  exact ⟨day, hday, wb.blocks, hne, ⟨pre, post, hsplit⟩, rfl, rfl, rfl, hmem, hle,
    closeWindow_getLast wb hne⟩

/-- C5, witness: for a one-day, one-RISKY-interval timeline the single
output window has duration 3 h, end time 12:00 and rain chance 7 %, as
computed from its single member. -/
theorem window_aggregates_witness :
    ({ day := 1, date := 5, startTime := 9, endTime := 12, durationHours := 3,
       quality := .RISKY, avgWind := 12, avgTemp := 20,
       rainChance := 7 } : SprayWindow).durationHours = 3 ∧
    ({ day := 1, date := 5, startTime := 9, endTime := 12, durationHours := 3,
       quality := .RISKY, avgWind := 12, avgTemp := 20,
       rainChance := 7 } : SprayWindow).endTime = 12 ∧
    ({ day := 1, date := 5, startTime := 9, endTime := 12, durationHours := 3,
       quality := .RISKY, avgWind := 12, avgTemp := 20,
       rainChance := 7 } : SprayWindow).rainChance = 7 := by
  have hfw : findSprayWindows
      [{ day := 1, date := 5,
         blocks := [{ time := { startH := 9, endH := 12 }, status := .RISKY,
                      wind := 12, windDir := 0, rain := 7, temp := 20,
                      reason := "rain", dt := 464400 }] }] =
      [{ day := 1, date := 5, startTime := 9, endTime := 12, durationHours := 3,
         quality := .RISKY, avgWind := 12, avgTemp := 20, rainChance := 7 }] := by
    with_unfolding_all exact rfl
  have h := window_aggregates _ _ (by rw [hfw]; exact List.mem_cons_self _ _)
  obtain ⟨day, hday, bs, hne, ⟨pre, post, hsplit⟩, hdur, hwind, htemp, hrmem, hrle,
    lb, hlast, hend⟩ := h
  have hday0 := List.mem_singleton.mp hday
  rw [hday0] at hsplit
  have hlen := congrArg List.length hsplit
  simp only [List.length_append, List.length_cons, List.length_nil] at hlen
  have hbs0 : 0 < bs.length := List.length_pos.mpr hne
  have hpre : pre = [] := List.length_eq_zero.mp (by omega)
  have hpost : post = [] := List.length_eq_zero.mp (by omega)
  rw [hpre, hpost, List.nil_append, List.append_nil] at hsplit
  rw [← hsplit] at hdur hlast hrmem
  refine ⟨by rw [hdur]; rfl, ?_, by rfl⟩
  rw [hend]
  simp only [List.getLast?] at hlast
  rw [Option.some.injEq] at hlast
  rw [← hlast]
  rfl

/-! ## C4 — ranking order and stability -/

/-- C4: in the ranked window list every adjacent pair (a, b) satisfies
`a.quality = PERFECT ∨ b.quality ≠ PERFECT` (no RISKY window precedes a
PERFECT one) and, when the qualities are equal,
`a.durationHours ≥ b.durationHours`; moreover the sort is stable: the
windows tied on both sort keys (quality class and duration) appear in
exactly their pre-sort day-then-chronological order. -/
theorem ranking_sorted_and_stable (timeline : List DayTimeline) :
    List.Chain' (fun a b =>
        (a.quality = .PERFECT ∨ ¬ b.quality = .PERFECT) ∧
        (a.quality = b.quality → b.durationHours ≤ a.durationHours))
      (findSprayWindows timeline) ∧
    ∀ (q : Bool) (n : ℕ),
      (findSprayWindows timeline).filter (tiedKey q n)
        = (allWindows timeline).filter (tiedKey q n) := by
  constructor
  · have hs : (List.mergeSort (allWindows timeline) windowLE).Pairwise (windowLE · ·) :=
      List.sorted_mergeSort windowLE_trans windowLE_total (allWindows timeline)
    have hchain := List.Pairwise.chain' hs
    refine List.Chain'.imp ?_ hchain
    intro a b hab
    rw [windowLE_iff] at hab
    constructor
    · by_cases ha : a.quality = .PERFECT
      · exact Or.inl ha
      · refine Or.inr fun hb => ?_
        unfold windowRank at hab
        rw [if_neg ha, if_pos hb] at hab
        omega
    · intro hq
      by_cases ha : a.quality = .PERFECT
      · unfold windowRank at hab
        rw [if_pos ha, if_pos (hq ▸ ha)] at hab
        omega
      · unfold windowRank at hab
        rw [if_neg ha, if_neg (hq ▸ ha)] at hab
        omega
  · intro q n
    have hpair : ((allWindows timeline).filter (tiedKey q n)).Pairwise (windowLE · ·) := by
      apply List.pairwise_of_forall_mem_list
      intro a ha b hb
      rw [List.mem_filter] at ha hb
      obtain ⟨-, ha2⟩ := ha
      obtain ⟨-, hb2⟩ := hb
      unfold tiedKey at ha2 hb2
      rw [Bool.and_eq_true, beq_iff_eq, beq_iff_eq] at ha2 hb2
      rw [windowLE_iff]
      refine Or.inr ⟨?_, ?_⟩
      · have hiff : (a.quality = SprayStatus.PERFECT) ↔ (b.quality = SprayStatus.PERFECT) :=
          decide_eq_decide.mp (ha2.1.trans hb2.1.symm)
        unfold windowRank
        by_cases hap : a.quality = SprayStatus.PERFECT
        · rw [if_pos hap, if_pos (hiff.mp hap)]
        · rw [if_neg hap, if_neg (fun hb => hap (hiff.mpr hb))]
      · rw [ha2.2, hb2.2]
    have hsub1 : List.Sublist ((allWindows timeline).filter (tiedKey q n))
        (List.mergeSort (allWindows timeline) windowLE) :=
      List.sublist_mergeSort windowLE_trans windowLE_total hpair
        (List.filter_sublist _)
    have hsub2 : List.Sublist ((allWindows timeline).filter (tiedKey q n))
        ((List.mergeSort (allWindows timeline) windowLE).filter (tiedKey q n)) := by
      have hf := hsub1.filter (tiedKey q n)
      rwa [List.filter_eq_self.mpr
        (fun a ha => (List.mem_filter.mp ha).2)] at hf
    have hlen : ((List.mergeSort (allWindows timeline) windowLE).filter
        (tiedKey q n)).length = ((allWindows timeline).filter (tiedKey q n)).length :=
      ((List.mergeSort_perm (allWindows timeline) windowLE).filter _).length_eq
    exact (hsub2.eq_of_length hlen.symm).symm

/-- C4, witness: for a one-day [PERFECT, RISKY, RISKY] timeline the
ranked list satisfies the adjacency conditions, and the windows tied on
(non-PERFECT, 6 h) appear exactly as in the pre-sort list. -/
theorem ranking_sorted_and_stable_witness :
    List.Chain' (fun a b =>
        (a.quality = .PERFECT ∨ ¬ b.quality = .PERFECT) ∧
        (a.quality = b.quality → b.durationHours ≤ a.durationHours))
      (findSprayWindows
        [{ day := 2, date := 7,
           blocks := [{ time := { startH := 7, endH := 10 }, status := .PERFECT,
                        wind := 4, windDir := 0, rain := 1, temp := 15,
                        reason := "ok", dt := 630000 },
                      { time := { startH := 10, endH := 13 }, status := .RISKY,
                        wind := 13, windDir := 0, rain := 12, temp := 15,
                        reason := "rain", dt := 640800 },
                      { time := { startH := 13, endH := 16 }, status := .RISKY,
                        wind := 13, windDir := 0, rain := 12, temp := 15,
                        reason := "rain", dt := 651600 }] }]) ∧
    (findSprayWindows
        [{ day := 2, date := 7,
           blocks := [{ time := { startH := 7, endH := 10 }, status := .PERFECT,
                        wind := 4, windDir := 0, rain := 1, temp := 15,
                        reason := "ok", dt := 630000 },
                      { time := { startH := 10, endH := 13 }, status := .RISKY,
                        wind := 13, windDir := 0, rain := 12, temp := 15,
                        reason := "rain", dt := 640800 },
                      { time := { startH := 13, endH := 16 }, status := .RISKY,
                        wind := 13, windDir := 0, rain := 12, temp := 15,
                        reason := "rain", dt := 651600 }] }]).filter (tiedKey false 6)
      = (allWindows
        [{ day := 2, date := 7,
           blocks := [{ time := { startH := 7, endH := 10 }, status := .PERFECT,
                        wind := 4, windDir := 0, rain := 1, temp := 15,
                        reason := "ok", dt := 630000 },
                      { time := { startH := 10, endH := 13 }, status := .RISKY,
                        wind := 13, windDir := 0, rain := 12, temp := 15,
                        reason := "rain", dt := 640800 },
                      { time := { startH := 13, endH := 16 }, status := .RISKY,
                        wind := 13, windDir := 0, rain := 12, temp := 15,
                        reason := "rain", dt := 651600 }] }]).filter (tiedKey false 6) :=
  ⟨(ranking_sorted_and_stable _).1, (ranking_sorted_and_stable _).2 false 6⟩

/-! ## C8 — night intervals: classification and window exclusion -/

/-- C8: every interval whose local hour is < 6 or ≥ 20 is classified
NIGHT with reason "Outside spraying hours (6am-8pm)", regardless of
wind, rain and temperature, and its block is a member of no window run
produced by the merger. -/
theorem night_classified_and_excluded (s : String) (forecast : List ForecastItem)
    (item : ForecastItem) (h : hourOf item.dt < 6 ∨ 20 ≤ hourOf item.dt) :
    (classifyBlock (windLimitsFor s) item).status = .NIGHT ∧
    (classifyBlock (windLimitsFor s) item).reason = "Outside spraying hours (6am-8pm)" ∧
    ∀ wb ∈ allWindowsWB (analyzeSprayConditions forecast s).timeline,
      ¬ (classifyBlock (windLimitsFor s) item) ∈ wb.blocks := by
  have hsr : (classifyBlock (windLimitsFor s) item).status = .NIGHT ∧
      (classifyBlock (windLimitsFor s) item).reason = "Outside spraying hours (6am-8pm)" := by
    unfold classifyBlock
    simp only
    rw [if_pos (by omega)]
    exact ⟨rfl, rfl⟩
  refine ⟨hsr.1, hsr.2, ?_⟩
  intro wb hwb hmem
  obtain ⟨day, hday, ⟨hne, hstat, hqual, hday', hdate⟩, hrun⟩ :=
    allWindowsWB_good _ wb hwb
  have := hstat _ hmem
  rw [hsr.1] at this
  rcases hqual with hq | hq <;> rw [hq] at this <;> cases this

/-- C8, witness: a 22:00 interval with otherwise-perfect numbers is
NIGHT, and in the forecast [10:00 perfect, 22:00 night] its block is
not a member of the single produced window. -/
theorem night_classified_and_excluded_witness :
    (classifyBlock (windLimitsFor "herbicide")
        { dt := 79200, windSpeed := 2, windDeg := 0, pop := 0, temp := 18 }).status
      = .NIGHT ∧
    (classifyBlock (windLimitsFor "herbicide")
        { dt := 79200, windSpeed := 2, windDeg := 0, pop := 0, temp := 18 }).reason
      = "Outside spraying hours (6am-8pm)" ∧
    ¬ (classifyBlock (windLimitsFor "herbicide")
        { dt := 79200, windSpeed := 2, windDeg := 0, pop := 0, temp := 18 })
      ∈ ({ day := 4, date := 0, startTime := 10,
           blocks := [{ time := { startH := 10, endH := 13 }, status := .PERFECT,
                        wind := 2237/500, windDir := 0, rain := 0, temp := 18,
                        reason := "Ideal spraying conditions", dt := 36000 }],
           quality := .PERFECT } : WindowAcc).blocks := by
  have h := night_classified_and_excluded "herbicide"
    [{ dt := 36000, windSpeed := 2, windDeg := 0, pop := 0, temp := 18 },
     { dt := 79200, windSpeed := 2, windDeg := 0, pop := 0, temp := 18 }]
    { dt := 79200, windSpeed := 2, windDeg := 0, pop := 0, temp := 18 }
    (by decide)
  refine ⟨h.1, h.2.1, ?_⟩
  refine h.2.2 _ ?_
  have hwb : allWindowsWB (analyzeSprayConditions
      [{ dt := 36000, windSpeed := 2, windDeg := 0, pop := 0, temp := 18 },
       { dt := 79200, windSpeed := 2, windDeg := 0, pop := 0, temp := 18 }]
      "herbicide").timeline =
      [{ day := 4, date := 0, startTime := 10,
         blocks := [{ time := { startH := 10, endH := 13 }, status := .PERFECT,
                      wind := 2237/500, windDir := 0, rain := 0, temp := 18,
                      reason := "Ideal spraying conditions", dt := 36000 }],
         quality := .PERFECT }] := by
    with_unfolding_all exact rfl
  rw [hwb]
  exact List.mem_cons_self _ _

/-! ## C3 — completeness and order preservation of the timeline -/

/-- C3: for every forecast, the classified intervals across all
timeline days together number exactly the input intervals, and each
day's blocks are precisely the classified forms of the input intervals
of that calendar day, in arrival order — nothing dropped, duplicated or
reordered within a day. -/
theorem timeline_complete_and_ordered (forecast : List ForecastItem) (sprayType : String) :
    ((analyzeSprayConditions forecast sprayType).timeline.map
        (fun d => d.blocks.length)).sum = forecast.length ∧
    ∀ d ∈ (analyzeSprayConditions forecast sprayType).timeline,
      d.blocks = (forecast.filter (fun it => dayKeyOf it.dt == d.date)).map
        (classifyBlock (windLimitsFor sprayType)) := by
  have htl : (analyzeSprayConditions forecast sprayType).timeline
      = buildTimeline (windLimitsFor sprayType) forecast := rfl
  obtain ⟨hnd, hchar, hcomp, hsum⟩ := buildDayMap_inv (windLimitsFor sprayType) forecast
  constructor
  · rw [htl]
    unfold buildTimeline
    rw [List.map_map]
    exact hsum
  · intro d hd
    rw [htl] at hd
    unfold buildTimeline at hd
    obtain ⟨p, hp, hpd⟩ := List.mem_map.mp hd
    obtain ⟨hdate, hblocks⟩ := hchar p hp
    rw [← hpd, hdate]
    exact hblocks

set_option maxRecDepth 4000 in
/-- C3, witness: a one-interval forecast (11:00, wind 3 m/s, rain 10 %,
20 °C) yields a one-day timeline with exactly that interval, classified,
and the total block count is 1. -/
theorem timeline_complete_and_ordered_witness :
    ((analyzeSprayConditions
        [{ dt := 39600, windSpeed := 3, windDeg := 0, pop := 1/10, temp := 20 }]
        "herbicide").timeline.map (fun d => d.blocks.length)).sum = 1 ∧
    ({ day := 4, date := 0,
       blocks := [{ time := { startH := 11, endH := 14 }, status := .RISKY,
                    wind := 6711/1000, windDir := 0, rain := 10, temp := 20,
                    reason := "Light rain possible", dt := 39600 }] } : DayTimeline).blocks
      = ([{ dt := 39600, windSpeed := 3, windDeg := 0, pop := 1/10, temp := 20 }].filter
          (fun it => dayKeyOf it.dt ==
            ({ day := 4, date := 0,
               blocks := [{ time := { startH := 11, endH := 14 }, status := .RISKY,
                            wind := 6711/1000, windDir := 0, rain := 10, temp := 20,
                            reason := "Light rain possible", dt := 39600 }] } : DayTimeline).date)).map
        (classifyBlock (windLimitsFor "herbicide")) := by
  have h := timeline_complete_and_ordered
    [{ dt := 39600, windSpeed := 3, windDeg := 0, pop := 1/10, temp := 20 }] "herbicide"
  have htl : (analyzeSprayConditions
      [{ dt := 39600, windSpeed := 3, windDeg := 0, pop := 1/10, temp := 20 }]
      "herbicide").timeline =
      [{ day := 4, date := 0,
         blocks := [{ time := { startH := 11, endH := 14 }, status := .RISKY,
                      wind := 6711/1000, windDir := 0, rain := 10, temp := 20,
                      reason := "Light rain possible", dt := 39600 }] }] := by
    with_unfolding_all exact rfl
  exact ⟨h.1, h.2 _ (by rw [htl]; exact List.mem_singleton.mpr rfl)⟩

/-! ## C6 — wind of exactly 16 mph under the two profiles -/

/-- C6, counterexample: the claim asserts that 16 mph under the
insecticide profile (perfectMax = 15, riskyMax = 18) is PERFECT; on the
code 16 mph exceeds perfectMax = 15, so the interval is RISKY, not
PERFECT (wind 16000/2237 m/s converts to exactly 16 mph). -/
theorem insecticide_wind16_counterexample :
    (classifyBlock (windLimitsFor "insecticide")
        { dt := 36000, windSpeed := 16000/2237, windDeg := 0, pop := 0, temp := 18 }).status
      = .RISKY ∧
    ¬ (classifyBlock (windLimitsFor "insecticide")
        { dt := 36000, windSpeed := 16000/2237, windDeg := 0, pop := 0, temp := 18 }).status
      = .PERFECT ∧
    ((16000 : ℚ)/2237) * (2237/1000) = 16 := by
  refine ⟨?_, ?_, ?_⟩ <;> with_unfolding_all decide

/-- C6, amended: a daytime interval converting to exactly 16 mph, with
raw rain percent below 5 and temperature ∈ [5, 25] °C, is DONT_SPRAY
with reason "High wind (16mph)" under the herbicide profile
(perfectMax = 10, riskyMax = 15) and RISKY with reason
"Wind approaching limit" under the insecticide profile
(perfectMax = 15, riskyMax = 18) — not PERFECT. -/
theorem wind16_herbicide_vs_insecticide (item : ForecastItem)
    (h6 : 6 ≤ hourOf item.dt) (h20 : hourOf item.dt < 20)
    (hw : item.windSpeed * (2237/1000) = 16)
    (hr : item.pop * 100 < 5)
    (ht1 : 5 ≤ item.temp) (ht2 : item.temp ≤ 25) :
    (classifyBlock (windLimitsFor "herbicide") item).status = .DONT_SPRAY ∧
    (classifyBlock (windLimitsFor "herbicide") item).reason = "High wind (16mph)" ∧
    (classifyBlock (windLimitsFor "insecticide") item).status = .RISKY ∧
    (classifyBlock (windLimitsFor "insecticide") item).reason = "Wind approaching limit" ∧
    ¬ (classifyBlock (windLimitsFor "insecticide") item).status = .PERFECT := by
  have hherb : windLimitsFor "herbicide" = { perfect := 10, risky := 15 } := by
    with_unfolding_all decide
  have hins : windLimitsFor "insecticide" = { perfect := 15, risky := 18 } := by
    with_unfolding_all decide
  constructor
  · unfold classifyBlock
    rw [hherb]
    simp only
    rw [if_neg (by omega), if_neg (by rintro ⟨-, hle, -⟩; rw [hw] at hle; norm_num at hle),
      if_neg (by rintro (⟨-, hle⟩ | ⟨h5, -⟩ | ⟨-, h5⟩ | ⟨h25, -⟩) <;>
        first
          | (rw [hw] at hle; norm_num at hle)
          | linarith)]
  constructor
  · unfold classifyBlock
    rw [hherb]
    simp only
    rw [if_neg (by omega), if_neg (by rintro ⟨-, hle, -⟩; rw [hw] at hle; norm_num at hle),
      if_neg (by rintro (⟨-, hle⟩ | ⟨h5, -⟩ | ⟨-, h5⟩ | ⟨h25, -⟩) <;>
        first
          | (rw [hw] at hle; norm_num at hle)
          | linarith),
      if_pos (by rw [hw]; norm_num)]
    simp only
    rw [hw]
    with_unfolding_all decide
  have hstep : (classifyBlock (windLimitsFor "insecticide") item).status = .RISKY ∧
      (classifyBlock (windLimitsFor "insecticide") item).reason = "Wind approaching limit" := by
    unfold classifyBlock
    rw [hins]
    simp only
    rw [if_neg (by omega), if_neg (by rintro ⟨-, hle, -⟩; rw [hw] at hle; norm_num at hle),
      if_pos (Or.inl ⟨by rw [hw]; norm_num, by rw [hw]; norm_num⟩),
      if_pos (by rw [hw]; norm_num)]
    exact ⟨rfl, rfl⟩
  exact ⟨hstep.1, hstep.2, by rw [hstep.1]; simp⟩

/-- C6, witness: the amended statement at the concrete 16 mph interval. -/
theorem wind16_herbicide_vs_insecticide_witness :
    (classifyBlock (windLimitsFor "herbicide")
        { dt := 36000, windSpeed := 16000/2237, windDeg := 0, pop := 0, temp := 18 }).status
      = .DONT_SPRAY ∧
    (classifyBlock (windLimitsFor "herbicide")
        { dt := 36000, windSpeed := 16000/2237, windDeg := 0, pop := 0, temp := 18 }).reason
      = "High wind (16mph)" ∧
    (classifyBlock (windLimitsFor "insecticide")
        { dt := 36000, windSpeed := 16000/2237, windDeg := 0, pop := 0, temp := 18 }).status
      = .RISKY ∧
    (classifyBlock (windLimitsFor "insecticide")
        { dt := 36000, windSpeed := 16000/2237, windDeg := 0, pop := 0, temp := 18 }).reason
      = "Wind approaching limit" ∧
    ¬ (classifyBlock (windLimitsFor "insecticide")
        { dt := 36000, windSpeed := 16000/2237, windDeg := 0, pop := 0, temp := 18 }).status
      = .PERFECT :=
  wind16_herbicide_vs_insecticide
    { dt := 36000, windSpeed := 16000/2237, windDeg := 0, pop := 0, temp := 18 }
    (by decide) (by decide) (by with_unfolding_all decide)
    (by with_unfolding_all decide) (by with_unfolding_all decide)
    (by with_unfolding_all decide)

/-! ## C7 — which reason a RISKY interval receives -/

/-- C7, counterexample: the claim asserts that the reason
"Wind approaching limit" is used only when wind mph lies in
(perfectMax, riskyMax], and that a rain-caused RISKY interval with wind
above riskyMax gets "Light rain possible".  On the code the reason
check is only `windMph > perfectMax`, with no upper cap: at 10:00 with
wind 20 mph (> riskyMax = 15), rain 10 % and 18 °C the herbicide
classifier is RISKY with reason "Wind approaching limit". -/
theorem risky_reason_counterexample :
    (classifyBlock (windLimitsFor "herbicide")
        { dt := 36000, windSpeed := 20000/2237, windDeg := 0, pop := 1/10, temp := 18 }).status
      = .RISKY ∧
    (classifyBlock (windLimitsFor "herbicide")
        { dt := 36000, windSpeed := 20000/2237, windDeg := 0, pop := 1/10, temp := 18 }).reason
      = "Wind approaching limit" ∧
    ¬ (classifyBlock (windLimitsFor "herbicide")
        { dt := 36000, windSpeed := 20000/2237, windDeg := 0, pop := 1/10, temp := 18 }).reason
      = "Light rain possible" ∧
    ((20000 : ℚ)/2237) * (2237/1000) = 20 := by
  refine ⟨?_, ?_, ?_, ?_⟩ <;> with_unfolding_all decide

/-- C7, amended: the RISKY reason check on wind is only
`windMph > perfectMax`, with no upper cap at riskyMax: every daytime
interval that is RISKY because its raw rain percent lies in [5, 20]
while its wind mph exceeds riskyMax receives the reason
"Wind approaching limit", not "Light rain possible". -/
theorem risky_reason_wind_uncapped (s : String) (item : ForecastItem)
    (h6 : 6 ≤ hourOf item.dt) (h20 : hourOf item.dt < 20)
    (hwr : (windLimitsFor s).risky < item.windSpeed * (2237/1000))
    (hr5 : 5 ≤ item.pop * 100) (hr20 : item.pop * 100 ≤ 20) :
    (classifyBlock (windLimitsFor s) item).status = .RISKY ∧
    (classifyBlock (windLimitsFor s) item).reason = "Wind approaching limit" ∧
    ¬ (classifyBlock (windLimitsFor s) item).reason = "Light rain possible" := by
  obtain ⟨hp2, hpr⟩ := windLimitsFor_facts s
  have hwp : (windLimitsFor s).perfect < item.windSpeed * (2237/1000) := by linarith
  unfold classifyBlock
  simp only
  rw [if_neg (by omega), if_neg (by rintro ⟨-, hle, hlt, -⟩; linarith),
    if_pos (Or.inr (Or.inl ⟨hr5, hr20⟩)), if_pos hwp]
  exact ⟨rfl, rfl, by decide⟩

/-- C7, witness: the amended statement at the concrete 20 mph / 10 %
interval under the herbicide profile. -/
theorem risky_reason_wind_uncapped_witness :
    (classifyBlock (windLimitsFor "herbicide")
        { dt := 36000, windSpeed := 20000/2237, windDeg := 0, pop := 1/10, temp := 18 }).status
      = .RISKY ∧
    (classifyBlock (windLimitsFor "herbicide")
        { dt := 36000, windSpeed := 20000/2237, windDeg := 0, pop := 1/10, temp := 18 }).reason
      = "Wind approaching limit" ∧
    ¬ (classifyBlock (windLimitsFor "herbicide")
        { dt := 36000, windSpeed := 20000/2237, windDeg := 0, pop := 1/10, temp := 18 }).reason
      = "Light rain possible" :=
  risky_reason_wind_uncapped "herbicide"
    { dt := 36000, windSpeed := 20000/2237, windDeg := 0, pop := 1/10, temp := 18 }
    (by decide) (by decide) (by with_unfolding_all decide)
    (by with_unfolding_all decide) (by with_unfolding_all decide)

/-! ## C9 — unknown spray-type labels and the herbicide fallback -/

/-- C9, counterexample: the claim asserts that EVERY label other than
"herbicide", "fungicide", "insecticide" yields the herbicide analysis.
The label "toString" is none of the three, yet
`windLimits["toString"]` finds the truthy inherited
`Object.prototype.toString`, the `||` fallback never fires, both
thresholds read as `undefined`, and a daytime interval of 2 m/s, 0 %
rain and 18 °C — PERFECT under "herbicide" — is DONT_SPRAY, so the two
analyses differ. -/
theorem unknown_label_proto_counterexample :
    ¬ "toString" = "herbicide" ∧ ¬ "toString" = "fungicide" ∧
    ¬ "toString" = "insecticide" ∧
    (classifyBlockJS (resolveLimits "toString")
        { dt := 36000, windSpeed := 2, windDeg := 0, pop := 0, temp := 18 }).status
      = .DONT_SPRAY ∧
    (classifyBlockJS (resolveLimits "herbicide")
        { dt := 36000, windSpeed := 2, windDeg := 0, pop := 0, temp := 18 }).status
      = .PERFECT ∧
    ¬ analyzeSprayConditionsFull
        [{ dt := 36000, windSpeed := 2, windDeg := 0, pop := 0, temp := 18 }] "toString"
      = analyzeSprayConditionsFull
        [{ dt := 36000, windSpeed := 2, windDeg := 0, pop := 0, temp := 18 }] "herbicide" := by
  refine ⟨by decide, by decide, by decide, ?_, ?_, ?_⟩
  · with_unfolding_all decide
  · with_unfolding_all decide
  · have ht : analyzeSprayConditionsFull
        [{ dt := 36000, windSpeed := 2, windDeg := 0, pop := 0, temp := 18 }] "toString"
        = { recommendedWindows := [],
            timeline := [{ day := 4, date := 0,
                           blocks := [{ time := { startH := 10, endH := 13 },
                                        status := .DONT_SPRAY,
                                        wind := 2237/500, windDir := 0, rain := 0,
                                        temp := 18,
                                        reason := "Unsuitable conditions",
                                        dt := 36000 }] }] } := by
      with_unfolding_all exact rfl
    have hh : analyzeSprayConditionsFull
        [{ dt := 36000, windSpeed := 2, windDeg := 0, pop := 0, temp := 18 }] "herbicide"
        = { recommendedWindows := [{ day := 4, date := 0, startTime := 10, endTime := 13,
                                     durationHours := 3, quality := .PERFECT,
                                     avgWind := 2237/500,
                                     avgTemp := 18, rainChance := 0 }],
            timeline := [{ day := 4, date := 0,
                           blocks := [{ time := { startH := 10, endH := 13 },
                                        status := .PERFECT,
                                        wind := 2237/500, windDir := 0, rain := 0,
                                        temp := 18,
                                        reason := "Ideal spraying conditions",
                                        dt := 36000 }] }] } := by
      with_unfolding_all exact rfl
    rw [ht, hh]
    with_unfolding_all decide

/-- C9, amended: a spray-type label that is not one of the three table
entries and does not name a member inherited from `Object.prototype`
silently resolves to the herbicide profile, with analysis identical to
"herbicide" and no error raised; a label naming an inherited member
("toString", "constructor", "valueOf", …) instead resolves to a truthy
non-profile whose thresholds read as `undefined`, and its analysis may
differ from herbicide's (still with no error). -/
theorem unknown_label_defaults_unless_proto (forecast : List ForecastItem) (s : String)
    (h1 : ¬ s = "herbicide") (h2 : ¬ s = "fungicide") (h3 : ¬ s = "insecticide")
    (h4 : ¬ s ∈ objectProtoKeys) :
    analyzeSprayConditionsFull forecast s
      = analyzeSprayConditionsFull forecast "herbicide" := by
  have hres : resolveLimits s = some { perfect := 10, risky := 15 } := by
    unfold resolveLimits windLimitsFor
    rw [if_neg h4, if_neg h1, if_neg h2, if_neg h3]
  have hresh : resolveLimits "herbicide" = some { perfect := 10, risky := 15 } := by
    with_unfolding_all decide
  unfold analyzeSprayConditionsFull
  rw [hres, hresh]

/-- C9, witness: the nonsense label "slug" (not a table entry, not an
inherited member name) yields the same analysis as "herbicide" on a
concrete one-interval forecast. -/
theorem unknown_label_defaults_unless_proto_witness :
    analyzeSprayConditionsFull
        [{ dt := 36000, windSpeed := 2, windDeg := 0, pop := 0, temp := 18 }] "slug"
      = analyzeSprayConditionsFull
        [{ dt := 36000, windSpeed := 2, windDeg := 0, pop := 0, temp := 18 }] "herbicide" :=
  unknown_label_defaults_unless_proto
    [{ dt := 36000, windSpeed := 2, windDeg := 0, pop := 0, temp := 18 }] "slug"
    (by decide) (by decide) (by decide) (by decide)

/-! ## C10 — dead-calm wind is DONT_SPRAY -/

/-- C10: every daytime interval with wind mph strictly below 2, raw rain
percent below 5 and temperature ∈ [5, 25] °C is DONT_SPRAY with reason
"Unsuitable conditions": PERFECT requires wind mph ≥ 2 and no RISKY
sub-condition covers low wind, so dead-calm weather is never PERFECT or
RISKY. -/
theorem dead_calm_is_dont_spray (s : String) (item : ForecastItem)
    (h6 : 6 ≤ hourOf item.dt) (h20 : hourOf item.dt < 20)
    (hw : item.windSpeed * (2237/1000) < 2) (hr : item.pop * 100 < 5)
    (ht1 : 5 ≤ item.temp) (ht2 : item.temp ≤ 25) :
    (classifyBlock (windLimitsFor s) item).status = .DONT_SPRAY ∧
    (classifyBlock (windLimitsFor s) item).reason = "Unsuitable conditions" ∧
    ¬ (classifyBlock (windLimitsFor s) item).status = .PERFECT ∧
    ¬ (classifyBlock (windLimitsFor s) item).status = .RISKY := by
  obtain ⟨hp2, hpr⟩ := windLimitsFor_facts s
  unfold classifyBlock
  simp only
  rw [if_neg (by omega)]
  rw [if_neg (by rintro ⟨h2, -⟩; linarith)]
  rw [if_neg ?_]
  · rw [if_neg (by intro h; linarith), if_neg (by intro h; linarith),
      if_neg (by intro h; linarith), if_neg (by intro h; linarith)]
    exact ⟨rfl, rfl, by decide, by decide⟩
  · rintro (⟨hpw, -⟩ | ⟨hq5, -⟩ | ⟨-, ht5⟩ | ⟨ht25, -⟩) <;> linarith

/-- C10, witness: the statement at a concrete dead-calm interval
(wind 0.5 m/s ≈ 1.12 mph, rain 0 %, 18 °C, 10:00). -/
theorem dead_calm_is_dont_spray_witness :
    (classifyBlock (windLimitsFor "herbicide")
        { dt := 36000, windSpeed := 1/2, windDeg := 0, pop := 0, temp := 18 }).status
      = .DONT_SPRAY ∧
    (classifyBlock (windLimitsFor "herbicide")
        { dt := 36000, windSpeed := 1/2, windDeg := 0, pop := 0, temp := 18 }).reason
      = "Unsuitable conditions" ∧
    ¬ (classifyBlock (windLimitsFor "herbicide")
        { dt := 36000, windSpeed := 1/2, windDeg := 0, pop := 0, temp := 18 }).status
      = .PERFECT ∧
    ¬ (classifyBlock (windLimitsFor "herbicide")
        { dt := 36000, windSpeed := 1/2, windDeg := 0, pop := 0, temp := 18 }).status
      = .RISKY :=
  dead_calm_is_dont_spray "herbicide"
    { dt := 36000, windSpeed := 1/2, windDeg := 0, pop := 0, temp := 18 }
    (by decide) (by decide) (by with_unfolding_all decide)
    (by with_unfolding_all decide) (by with_unfolding_all decide)
    (by with_unfolding_all decide)
